import Mathlib

/-!
Verification development for the repository: a Next.js demo API over an
in-memory book list, plus the retrieval-augmented-generation (RAG) pipeline
that the design specification describes around the notebook
src/retrieval_augmented_generation.ipynb.

Part 1 embeds the route handlers of src/2 - custom api/myapp/src/app/api
(status, hello, greetings) and the unnamed GET-by-id handler, together with
the fragment of ECMAScript loose equality and JSON serialization that their
behaviour depends on.

Part 2 models the Chunker, Indexer and Conversational Retriever. The code
that decides those claims is inside third-party libraries
(RecursiveCharacterTextSplitter, FAISS, ConversationalRetrievalChain) and is
not part of the repository sources, so those components are modelled from
the specification text, as flagged on each definition.
-/

/-- JSON values as produced by JSON.parse of a request body. Numbers are
modelled as integers: every id in the repository data is an integer literal
(see the sample body in the POST handler of the status route). -/
inductive Json where
  | null
  | bool (b : Bool)
  | num (n : Int)
  | str (s : String)
  | arr (elems : List Json)
  | obj (fields : List (String × Json))

mutual

/-- ECMAScript ToString on a JSON value, as used by ToPrimitive when an array
or object meets a string in a loose-equality comparison: arrays join their
elements with commas (null elements become the empty string), plain objects
become the literal text left bracket, object Object, right bracket. -/
def jsToString : Json → String
  | Json.null => "null"
  | Json.bool b => cond b "true" "false"
  | Json.num n => toString n
  | Json.str s => s
  | Json.arr xs => String.intercalate "," (jsArrParts xs)
  | Json.obj _ => "[object Object]"

/-- Element-wise ToString for Array.prototype.toString: null becomes "". -/
def jsArrParts : List Json → List String
  | [] => []
  | Json.null :: rest => "" :: jsArrParts rest
  | v :: rest => jsToString v :: jsArrParts rest

end

/-- Whitespace trimming on a character list, standing in for the trimming
ECMAScript ToNumber applies to strings. -/
def jsWhitespaceTrim (cs : List Char) : List Char :=
  ((cs.dropWhile Char.isWhitespace).reverse.dropWhile Char.isWhitespace).reverse

/-- Parse a non-empty run of decimal digits; none when a non-digit occurs. -/
def jsDigitsToNat (cs : List Char) : Option Nat :=
  if cs.isEmpty then none
  else cs.foldl
    (fun acc c => acc.bind fun n =>
      if c.isDigit then some (10 * n + (c.toNat - 48)) else none)
    (some 0)

/-- ECMAScript ToNumber on a string, restricted to the integer literals the
repository uses for ids: optional sign and decimal digits; the empty or
all-whitespace string is 0; anything else (including fractional, hex and
exponent forms, which no id in this repository takes) is treated as NaN,
encoded as none. -/
def jsStringToNumber (s : String) : Option Int :=
  match jsWhitespaceTrim s.data with
  | [] => some 0
  | c :: rest =>
    if c = Char.ofNat 45 then (jsDigitsToNat rest).map fun n => -(n : Int)
    else if c = Char.ofNat 43 then (jsDigitsToNat rest).map fun n => (n : Int)
    else (jsDigitsToNat (c :: rest)).map fun n => (n : Int)

/-- ECMAScript loose equality (==) between a JSON value and a string, the
comparison performed by the GET-by-id handler between book.id and the path
parameter: numbers compare via ToNumber of the string, booleans convert to
numbers first, null never equals a string, arrays and objects go through
ToPrimitive (their toString). -/
def jsLooseEqStr (v : Json) (s : String) : Bool :=
  match v with
  | Json.null => false
  | Json.bool b =>
    match jsStringToNumber s with
    | some m => decide ((cond b 1 0 : Int) = m)
    | none => false
  | Json.num n =>
    match jsStringToNumber s with
    | some m => decide (n = m)
    | none => false
  | Json.str a => decide (a = s)
  | Json.arr xs => decide (jsToString (Json.arr xs) = s)
  | Json.obj _ => decide ("[object Object]" = s)

/-- Property access b.id on a JSON value: undefined (none) on non-objects or
missing fields, the first binding otherwise. -/
def Json.getField : Json → String → Option Json
  | Json.obj fields, name => (fields.find? fun f => decide (f.1 = name)).map fun f => f.2
  | _, _ => none

/-- Loose equality against a string for a possibly-undefined value:
undefined == string is false. -/
def jsLooseEqUndef (v : Option Json) (s : String) : Bool :=
  match v with
  | none => false
  | some j => jsLooseEqStr j s

/-- HTTP methods used by the demo route handlers. -/
inductive HttpMethod where
  | get
  | post
deriving DecidableEq

/-- Response bodies: the hello route answers JSON in one branch and plain
text in the other. -/
inductive HttpBody where
  | jsonBody (v : Json)
  | textBody (t : String)

/-- GET handler of src/2 - custom api/myapp/src/app/api/status/route.ts:
returns message, the shared books list, and an ok status. -/
def booksGET (books : List Json) : Json :=
  Json.obj [("message", Json.str "success"), ("data", Json.arr books),
    ("status", Json.str "ok")]

/-- POST handler of src/2 - custom api/myapp/src/app/api/status/route.ts:
pushes the parsed request body onto the shared books list unchecked and
returns the result of Array.prototype.push, which is the new length of the
list, under the key updatedBook. -/
def booksPOST (books : List Json) (body : Json) : List Json × Json :=
  let pushed := books ++ [body]
  let updatedBook := pushed.length
  (pushed, Json.obj [("updatedBook", Json.num (Int.ofNat updatedBook)),
    ("status", Json.str "success")])

/-- GET-by-id handler (src/unnamed/part_001): finds the first book whose id
is loosely equal (==) to the path parameter and returns status 200 with an
object holding that book under bookId; when no book matches, bookId is
undefined and JSON serialization drops the field, leaving an empty object.
There is no 404 branch and no error branch in the handler. -/
def bookByIdGET (books : List Json) (idParam : String) : Nat × Json :=
  match books.find? fun b => jsLooseEqUndef (b.getField "id") idParam with
  | some b => (200, Json.obj [("bookId", b)])
  | none => (200, Json.obj [])

/-- GET handler of the greetings dynamic-segment route
(src/2 - custom api/myapp/src/app/api/greetings/[name]/route.tsx). -/
def greetingsGET (name : String) : Json :=
  Json.obj [("From", Json.str name), ("Message", Json.str "Greetings from Pakistan"),
    ("RequestType", Json.str "GET")]

/-- GET handler of src/2 - custom api/myapp/src/app/api/hello/route.ts:
JSON greeting when the name query parameter is present, plain text hint
otherwise. -/
def helloGET (name : Option String) : HttpBody :=
  match name with
  | some n => HttpBody.jsonBody (Json.obj [("message", Json.str ("Hello, from " ++ n))])
  | none => HttpBody.textBody
      "Hello, from Next.js! If you want to display your name kindly provide your name as query parameter in url"

/-- Route table of the application, read off the app-router directory layout
under src/2 - custom api/myapp/src/app/api (folder path = URL path, [x] a
dynamic segment). The handlers over the books list live in the folder named
status; the unnamed GET-by-id source file imports the books data module via
../data, placing it one folder below api/status, hence /api/status/[id]. -/
def appRoutes : List (HttpMethod × String) :=
  [(HttpMethod.get, "/api/status"), (HttpMethod.post, "/api/status"),
   (HttpMethod.get, "/api/status/[id]"),
   (HttpMethod.get, "/api/greetings/[name]"),
   (HttpMethod.get, "/api/hello")]

/-- Route table as the specification sentence words it (endpoints named
/books, /books/[id], /greetings/[name], /hello), kept separate so it can be
compared against the table the source layout actually yields. -/
def claimedRoutes : List (HttpMethod × String) :=
  [(HttpMethod.get, "/books"), (HttpMethod.post, "/books"),
   (HttpMethod.get, "/books/[id]"),
   (HttpMethod.get, "/greetings/[name]"),
   (HttpMethod.get, "/hello")]

/-- Concrete book list used by witnesses, shaped like the sample request
body documented in the POST handler. -/
def demoBooks : List Json :=
  [Json.obj [("id", Json.num 145), ("name", Json.str "Me")]]

/-- Modelled from the spec: a Document as produced by the Ingestor, with a
source identifier, its raw text, and string metadata (section 3 of the
design). The loader code behind it (WebBaseLoader) is not in the repository
sources. -/
structure Document where
  source_id : String
  raw_text : String
  metadata : List (String × String)

/-- Modelled from the spec: a Chunk, an offset-tracked contiguous substring
of its source document with an ordering index; document_ref is carried as
the source_id of the referenced document, which is all the design uses of
it (the tie-break in section 4.2). -/
structure Chunk where
  doc_source_id : String
  text : String
  start_offset : Nat
  end_offset : Nat
  sequence_index : Nat
deriving DecidableEq

/-- Error taxonomy of the Chunker (section 7 of the design). -/
inductive ChunkerError where
  | InvalidConfiguration
deriving DecidableEq

/-- Number of windows a text of length len is cut into with window size
size and stride t (= size - overlap): one window when the text fits,
otherwise windows start at multiples of t and the count is the least n with
(n-1)*t + size >= len. -/
def numChunks (len size t : Nat) : Nat :=
  if len ≤ size then 1 else (len - size + t - 1) / t + 1

/-- Modelled from the spec: the Chunker on a text without larger structural
units, the case its scenario pins down exactly (chunk_size=500, overlap=100
on 1200 characters gives offsets 0-500, 400-900, 800-1200): windows of up
to chunk_size characters starting every chunk_size - overlap characters,
the trailing overlap characters of a window reappearing at the start of the
next, offsets into the original text; the splitter library itself is not in
the repository sources. -/
def splitChunks (d : Document) (size overlap : Nat) : List Chunk :=
  let cs := d.raw_text.data
  let t := size - overlap
  (List.range (numChunks cs.length size t)).map fun i =>
    Chunk.mk d.source_id
      (String.mk ((cs.drop (i * t)).take (min (i * t + size) cs.length - i * t)))
      (i * t) (min (i * t + size) cs.length) i

/-- Modelled from the spec: the Chunker contract
split(document, chunk_size, overlap), failing with InvalidConfiguration
unless chunk_size > 0 and 0 <= overlap < chunk_size (section 4.1). -/
def split (d : Document) (chunk_size overlap : Int) :
    Except ChunkerError (List Chunk) :=
  if chunk_size ≤ 0 ∨ overlap < 0 ∨ overlap ≥ chunk_size then
    Except.error ChunkerError.InvalidConfiguration
  else
    Except.ok (splitChunks d chunk_size.toNat overlap.toNat)

/-- Position p of the source text lies inside chunk c. -/
def coversAt (c : Chunk) (p : Nat) : Prop :=
  c.start_offset ≤ p ∧ p < c.end_offset

/-- First n characters of a character list. -/
def firstN (n : Nat) (l : List Char) : List Char := l.take n

/-- Last n characters of a character list. -/
def lastN (n : Nat) (l : List Char) : List Char := l.drop (l.length - n)

/-- Modelled from the spec: the Index, the sequence of (Chunk, embedding
vector) entries owned by the Indexer, read-only after build (section 3).
Vectors are rational-valued. -/
structure Index where
  entries : List (Chunk × List ℚ)
deriving DecidableEq

/-- Fixed dimensionality of an index: the length of its first vector (the
design makes it constant across the whole index). -/
def Index.dim (idx : Index) : Nat :=
  match idx.entries with
  | [] => 0
  | e :: _ => e.2.length

/-- Modelled from the spec: build(chunks, embed) embeds every chunk
independently and stores the (Chunk, vector) pairs (section 4.2). -/
def build (chunks : List Chunk) (embed : Chunk → List ℚ) : Index :=
  Index.mk (chunks.map fun c => (c, embed c))

/-- Indexer misuse errors (section 4.2 and 7 of the design). -/
inductive IndexError where
  | EmptyIndex
  | DimensionMismatch
deriving DecidableEq

/-- Squared Euclidean distance of two vectors. -/
def sqDist (u v : List ℚ) : ℚ :=
  (List.zipWith (fun a b => (a - b) * (a - b)) u v).sum

/-- Modelled from the spec: the similarity score of a stored vector against
the query vector; the design allows Euclidean distance, and the score is
its negated square so that larger means more similar while staying inside
the rationals (squaring preserves the Euclidean ranking). -/
def score (v u : List ℚ) : ℚ := -sqDist v u

/-- Modelled from the spec: the retrieval ranking relation: strictly larger
score first, equal scores broken by ascending sequence_index and then
ascending document source_id (section 4.2). -/
def entryRel (a b : Chunk × ℚ) : Prop :=
  b.2 < a.2 ∨ (a.2 = b.2 ∧ (a.1.sequence_index < b.1.sequence_index ∨
    (a.1.sequence_index = b.1.sequence_index ∧
      a.1.doc_source_id ≤ b.1.doc_source_id)))

instance : DecidableRel entryRel := fun a b => by
  unfold entryRel
  infer_instance

instance : IsTrans (Chunk × ℚ) entryRel :=
  ⟨by
    rintro a b c (h1 | ⟨he1, h1⟩) (h2 | ⟨he2, h2⟩)
    · exact Or.inl (lt_trans h2 h1)
    · exact Or.inl (he2 ▸ h1)
    · exact Or.inl (lt_of_lt_of_eq h2 he1.symm)
    · refine Or.inr ⟨he1.trans he2, ?_⟩
      rcases h1 with hs1 | ⟨hse1, hd1⟩ <;> rcases h2 with hs2 | ⟨hse2, hd2⟩
      · exact Or.inl (by omega)
      · exact Or.inl (by omega)
      · exact Or.inl (by omega)
      · exact Or.inr ⟨by omega, le_trans hd1 hd2⟩⟩

instance : IsTotal (Chunk × ℚ) entryRel :=
  ⟨by
    intro a b
    rcases lt_trichotomy a.2 b.2 with h | h | h
    · exact Or.inr (Or.inl h)
    · rcases Nat.lt_trichotomy a.1.sequence_index b.1.sequence_index with hs | hs | hs
      · exact Or.inl (Or.inr ⟨h, Or.inl hs⟩)
      · rcases le_total a.1.doc_source_id b.1.doc_source_id with hd | hd
        · exact Or.inl (Or.inr ⟨h, Or.inr ⟨hs, hd⟩⟩)
        · exact Or.inr (Or.inr ⟨h.symm, Or.inr ⟨hs.symm, hd⟩⟩)
      · exact Or.inr (Or.inr ⟨h.symm, Or.inl hs⟩)
    · exact Or.inl (Or.inl h)⟩

/-- Entries of the index scored against a query vector, ranked by the
deterministic retrieval order, truncated to the top k. -/
def topEntries (idx : Index) (v : List ℚ) (k : Nat) : List (Chunk × ℚ) :=
  (List.insertionSort entryRel (idx.entries.map fun e => (e.1, score v e.2))).take k

/-- Modelled from the spec: query(vector, k), failing with EmptyIndex before
any chunk has been inserted and with DimensionMismatch when the vector
length disagrees with the fixed dimensionality (section 4.2). -/
def query (idx : Index) (v : List ℚ) (k : Nat) :
    Except IndexError (List (Chunk × ℚ)) :=
  if idx.entries = [] then Except.error IndexError.EmptyIndex
  else if v.length ≠ idx.dim then Except.error IndexError.DimensionMismatch
  else Except.ok (topEntries idx v k)

/-- Modelled from the spec: the outcome of a call to the generation backend,
which may fail with GenerationUnavailable (section 6). -/
inductive GenResult where
  | ok (text : String)
  | unavailable
deriving DecidableEq

/-- Failure modes of the Conversational Retriever (section 4.3). -/
inductive RetrieverError where
  | RetrievalUnavailable
  | GenerationUnavailable
deriving DecidableEq

/-- Modelled from the spec: the value a Retriever call returns, the answer
plus the supporting Retrieval Result; answer none is the explicit
no-answer-available marker of the degraded mode. -/
structure RetrieverOutput where
  answer : Option String
  source_chunks : List (Chunk × ℚ)
deriving DecidableEq

/-- Modelled from the spec: the one-shot reformulation prompt combining the
latest turns with the new query (section 4.3, step 1). -/
def reformPrompt (history : List (String × String)) (q : String) : String :=
  String.intercalate "\n" (history.map fun turn => turn.1 ++ "\n" ++ turn.2) ++ "\n" ++ q

/-- Modelled from the spec: query reformulation, delegated to the generation
backend as a side-effect-free sub-call; the specification leaves the
failure of this sub-call open, so the raw query is used in that case. -/
def reformulate (gen : String → GenResult) (history : List (String × String))
    (q : String) : String :=
  match gen (reformPrompt history q) with
  | GenResult.ok r => r
  | GenResult.unavailable => q

/-- Modelled from the spec: the generation prompt combining the original
query with the text of the retrieved chunks (section 4.3, step 3). -/
def genPrompt (q : String) (res : List (Chunk × ℚ)) : String :=
  q ++ "\n" ++ String.intercalate "\n" (res.map fun e => e.1.text)

/-- Modelled from the spec: the Conversational Retriever (section 4.3):
reformulate when history is non-empty, embed, retrieve top k, generate; a
failed embedding or index query is fatal as RetrievalUnavailable; a failed
generation call degrades to the Retrieval Result with the no-answer marker
when retrieval_only is opted into, and surfaces GenerationUnavailable
otherwise. -/
def converse (retrieval_only : Bool) (gen : String → GenResult)
    (embed : String → Option (List ℚ)) (idx : Index)
    (history : List (String × String)) (q : String) (k : Nat) :
    Except RetrieverError RetrieverOutput :=
  let q2 := if history = [] then q else reformulate gen history q
  match embed q2 with
  | none => Except.error RetrieverError.RetrievalUnavailable
  | some v =>
    match query idx v k with
    | Except.error _ => Except.error RetrieverError.RetrievalUnavailable
    | Except.ok res =>
      match gen (genPrompt q res) with
      | GenResult.ok ans => Except.ok (RetrieverOutput.mk (some ans) res)
      | GenResult.unavailable =>
        if retrieval_only then Except.ok (RetrieverOutput.mk none res)
        else Except.error RetrieverError.GenerationUnavailable

/-- A 1200-character text (cycling lowercase letters) for the scenario of
the specification. -/
def demoText1200 : String :=
  String.mk ((List.range 1200).map fun i => Char.ofNat (97 + i % 26))

/-- Document whose raw text is exactly 1200 characters. -/
def demoDoc1200 : Document :=
  Document.mk "https://example.test/demo" demoText1200 []

/-- A five-character document for counterexamples and witnesses. -/
def demoDocSmall : Document :=
  Document.mk "doc-small" "abcde" []

/-- Fallback chunk for getD access in concrete statements. -/
def chunkDefault : Chunk := Chunk.mk "" "" 0 0 0

/-- A concrete chunk used by index witnesses. -/
def demoChunk : Chunk := Chunk.mk "doc-small" "abcde" 0 5 0

/-- A constant one-dimensional embedding function for witnesses. -/
def demoEmbed : Chunk → List ℚ := fun _ => [1]

/-- A constant query-embedding function for witnesses. -/
def demoEmbedQ : String → Option (List ℚ) := fun _ => some [1]

/-- A generation backend that always fails, for the degraded-mode witness. -/
def demoGenFail : String → GenResult := fun _ => GenResult.unavailable

/-- Index over the single demo chunk. -/
def demoIdx : Index := build [demoChunk] demoEmbed

theorem numChunks_pos (len size t : Nat) : 0 < numChunks len size t := by
  unfold numChunks
  split
  · exact Nat.one_pos
  · exact Nat.succ_pos _

theorem numChunks_last (len size t : Nat) (ht : 0 < t) :
    len ≤ (numChunks len size t - 1) * t + size := by
  unfold numChunks
  split
  · simpa using ‹len ≤ size›
  · have hdm := Nat.div_add_mod (len - size + t - 1) t
    have hmod : (len - size + t - 1) % t < t := Nat.mod_lt _ ht
    have hc : ((len - size + t - 1) / t) * t = t * ((len - size + t - 1) / t) :=
      Nat.mul_comm _ _
    simp only [Nat.add_sub_cancel]
    omega

theorem numChunks_mid (len size t i : Nat) (ht : 0 < t)
    (h : i + 1 < numChunks len size t) : i * t + size < len := by
  unfold numChunks at h
  split at h
  · omega
  · have hdm := Nat.div_add_mod (len - size + t - 1) t
    have hmod : (len - size + t - 1) % t < t := Nat.mod_lt _ ht
    have hmul : (i + 1) * t ≤ ((len - size + t - 1) / t) * t :=
      Nat.mul_le_mul_right _ (by omega)
    have hsucc : (i + 1) * t = i * t + t := Nat.succ_mul i t
    have hc : ((len - size + t - 1) / t) * t = t * ((len - size + t - 1) / t) :=
      Nat.mul_comm _ _
    omega

theorem covers_exists (len size t p : Nat) (ht : 0 < t) (hts : t ≤ size)
    (hp : p < len) :
    ∃ i < numChunks len size t, i * t ≤ p ∧ p < min (i * t + size) len := by
  have hpos := numChunks_pos len size t
  have hlast := numChunks_last len size t ht
  by_cases hcase : p / t ≤ numChunks len size t - 1
  · refine ⟨p / t, by omega, Nat.div_mul_le_self p t, ?_⟩
    have hdm := Nat.div_add_mod p t
    have hmod : p % t < t := Nat.mod_lt _ ht
    have hc : p / t * t = t * (p / t) := Nat.mul_comm _ _
    exact lt_min_iff.mpr ⟨by omega, hp⟩
  · refine ⟨numChunks len size t - 1, by omega, ?_, ?_⟩
    · have h1 : (numChunks len size t - 1) * t ≤ (p / t) * t :=
        Nat.mul_le_mul_right _ (by omega)
      have h2 : p / t * t ≤ p := Nat.div_mul_le_self p t
      omega
    · exact lt_min_iff.mpr ⟨Nat.lt_of_lt_of_le hp hlast, hp⟩

theorem covers_close (size t p i j : Nat) (h2t : size ≤ 2 * t)
    (hilt : p < i * t + size) (hjp : j * t ≤ p) : j ≤ i + 1 := by
  by_contra hcon
  have h1 : (i + 2) * t ≤ j * t := Nat.mul_le_mul_right _ (by omega)
  have h2 : (i + 2) * t = i * t + 2 * t := by ring
  omega

theorem splitChunks_length (d : Document) (size ov : Nat) :
    (splitChunks d size ov).length =
      numChunks d.raw_text.data.length size (size - ov) := by
  simp [splitChunks]

theorem splitChunks_get (d : Document) (size ov i : Nat)
    (hi : i < (splitChunks d size ov).length) :
    (splitChunks d size ov).get ⟨i, hi⟩ =
      Chunk.mk d.source_id
        (String.mk ((d.raw_text.data.drop (i * (size - ov))).take
          (min (i * (size - ov) + size) d.raw_text.data.length - i * (size - ov))))
        (i * (size - ov)) (min (i * (size - ov) + size) d.raw_text.data.length) i := by
  simp [splitChunks, List.get_eq_getElem]

theorem lastN_window (cs : List Char) (a t size ov : Nat)
    (htov : t + ov = size) (hfull : a + size ≤ cs.length) :
    lastN ov ((cs.drop a).take size) = (cs.drop (a + t)).take ov := by
  unfold lastN
  have hlen : ((cs.drop a).take size).length = size := by
    simp [List.length_take, List.length_drop]
    omega
  rw [hlen, List.drop_take, List.drop_drop]
  have e1 : a + (size - ov) = a + t := by omega
  have e2 : size - (size - ov) = ov := by omega
  rw [e1, e2]

theorem firstN_window (cs : List Char) (b ov m : Nat) (hov : ov ≤ m) :
    firstN ov ((cs.drop b).take m) = (cs.drop b).take ov := by
  unfold firstN
  rw [List.take_take, Nat.min_eq_left hov]

/-- C1 (counterexample): with chunk_size = 3 and overlap = 2 — a pair the
claim admits, since 0 ≤ 2 < 3 — the five-character document abcde splits
into windows [0,3), [1,4), [2,5), and the character at offset 2, which lies
in the overlap regions, appears in three chunks, not in exactly two. -/
theorem chunker_overlap_counterexample :
    split demoDocSmall 3 2 = Except.ok (splitChunks demoDocSmall 3 2) ∧
    ((splitChunks demoDocSmall 3 2).map fun c => (c.start_offset, c.end_offset)) =
      [(0, 3), (1, 4), (2, 5)] ∧
    ((splitChunks demoDocSmall 3 2).filter fun c =>
      decide (c.start_offset ≤ 2 ∧ 2 < c.end_offset)).length = 3 := by
  refine ⟨rfl, by decide, by decide⟩

/-- C1 (amended: additionally requires 2 * overlap ≤ chunk_size, without
which a character can fall into more than two windows): for every document
and valid configuration with 2 * overlap ≤ chunk_size, split succeeds and
the chunks cover the text exactly — every character position lies in some
chunk, two chunks sharing a position are consecutive, a consecutive pair
shares exactly the overlap window, and the last `overlap` characters of
each chunk coincide verbatim with the first `overlap` characters of the
next. -/
theorem chunker_cover_overlap
    (d : Document) (size ov : Nat)
    (hs : 0 < size) (ho : ov < size) (h2 : 2 * ov ≤ size) :
    split d (size : Int) (ov : Int) = Except.ok (splitChunks d size ov) ∧
    (∀ p, p < d.raw_text.data.length →
      (∃ c ∈ splitChunks d size ov, coversAt c p) ∧
      (∀ i j (hi : i < (splitChunks d size ov).length)
         (hj : j < (splitChunks d size ov).length),
         coversAt ((splitChunks d size ov).get ⟨i, hi⟩) p →
         coversAt ((splitChunks d size ov).get ⟨j, hj⟩) p → i ≤ j → j ≤ i + 1) ∧
      (∀ i (hi : i + 1 < (splitChunks d size ov).length),
         (coversAt ((splitChunks d size ov).get ⟨i, Nat.lt_of_succ_lt hi⟩) p ∧
          coversAt ((splitChunks d size ov).get ⟨i + 1, hi⟩) p) ↔
         ((i + 1) * (size - ov) ≤ p ∧ p < i * (size - ov) + size))) ∧
    (∀ i (hi : i + 1 < (splitChunks d size ov).length),
       lastN ov (((splitChunks d size ov).get ⟨i, Nat.lt_of_succ_lt hi⟩).text.data) =
       firstN ov (((splitChunks d size ov).get ⟨i + 1, hi⟩).text.data)) := by
  have ht : 0 < size - ov := by omega
  have hts : size - ov ≤ size := Nat.sub_le size ov
  have h2t : size ≤ 2 * (size - ov) := by omega
  refine ⟨?_, ?_, ?_⟩
  · unfold split
    rw [if_neg (by omega)]
    rw [Int.toNat_natCast, Int.toNat_natCast]
  · intro p hp
    refine ⟨?_, ?_, ?_⟩
    · obtain ⟨i, hin, hcov⟩ :=
        covers_exists d.raw_text.data.length size (size - ov) p ht hts hp
      have hin' : i < (splitChunks d size ov).length := by
        rw [splitChunks_length]; exact hin
      refine ⟨(splitChunks d size ov).get ⟨i, hin'⟩, List.get_mem _ _ _, ?_⟩
      rw [splitChunks_get]
      exact hcov
    · intro i j hi hj hci hcj hij
      rw [splitChunks_get d size ov i hi] at hci
      rw [splitChunks_get d size ov j hj] at hcj
      obtain ⟨h1, h2c⟩ := hci
      exact covers_close size (size - ov) p i j h2t
        (lt_of_lt_of_le h2c (min_le_left _ _)) hcj.1
    · intro i hi
      have hi' : i + 1 < numChunks d.raw_text.data.length size (size - ov) := by
        rw [splitChunks_length] at hi; exact hi
      have hmid := numChunks_mid d.raw_text.data.length size (size - ov) i ht hi'
      rw [splitChunks_get d size ov i (Nat.lt_of_succ_lt hi)]
      rw [splitChunks_get d size ov (i + 1) hi]
      simp only [coversAt]
      have hsucc : (i + 1) * (size - ov) = i * (size - ov) + (size - ov) := by ring
      constructor
      · rintro ⟨⟨hc1, hc2⟩, ⟨hc3, hc4⟩⟩
        exact ⟨hc3, lt_of_lt_of_le hc2 (min_le_left _ _)⟩
      · rintro ⟨hq1, hq2⟩
        refine ⟨⟨by omega, lt_min_iff.mpr ⟨hq2, hp⟩⟩, hq1, lt_min_iff.mpr ⟨by omega, hp⟩⟩
  · intro i hi
    have hi' : i + 1 < numChunks d.raw_text.data.length size (size - ov) := by
      rw [splitChunks_length] at hi; exact hi
    have hmid := numChunks_mid d.raw_text.data.length size (size - ov) i ht hi'
    rw [splitChunks_get d size ov i (Nat.lt_of_succ_lt hi)]
    rw [splitChunks_get d size ov (i + 1) hi]
    show lastN ov ((d.raw_text.data.drop (i * (size - ov))).take
        (min (i * (size - ov) + size) d.raw_text.data.length - i * (size - ov))) =
      firstN ov ((d.raw_text.data.drop ((i + 1) * (size - ov))).take
        (min ((i + 1) * (size - ov) + size) d.raw_text.data.length -
          (i + 1) * (size - ov)))
    have hmin1 : min (i * (size - ov) + size) d.raw_text.data.length =
        i * (size - ov) + size := min_eq_left (le_of_lt hmid)
    rw [hmin1]
    have e1 : i * (size - ov) + size - i * (size - ov) = size := by omega
    rw [e1]
    have hsucc : (i + 1) * (size - ov) = i * (size - ov) + (size - ov) := by ring
    rw [lastN_window d.raw_text.data (i * (size - ov)) (size - ov) size ov
      (by omega) (by omega)]
    rw [firstN_window d.raw_text.data ((i + 1) * (size - ov)) ov _ (by omega)]
    rw [show i * (size - ov) + (size - ov) = (i + 1) * (size - ov) from hsucc.symm]

/-- Witness for C1 at the five-character document with chunk_size = 4 and
overlap = 2. -/
theorem chunker_cover_overlap_witness :
    split demoDocSmall ((4 : Nat) : Int) ((2 : Nat) : Int) =
      Except.ok (splitChunks demoDocSmall 4 2) ∧
    (∀ p, p < demoDocSmall.raw_text.data.length →
      (∃ c ∈ splitChunks demoDocSmall 4 2, coversAt c p) ∧
      (∀ i j (hi : i < (splitChunks demoDocSmall 4 2).length)
         (hj : j < (splitChunks demoDocSmall 4 2).length),
         coversAt ((splitChunks demoDocSmall 4 2).get ⟨i, hi⟩) p →
         coversAt ((splitChunks demoDocSmall 4 2).get ⟨j, hj⟩) p → i ≤ j → j ≤ i + 1) ∧
      (∀ i (hi : i + 1 < (splitChunks demoDocSmall 4 2).length),
         (coversAt ((splitChunks demoDocSmall 4 2).get ⟨i, Nat.lt_of_succ_lt hi⟩) p ∧
          coversAt ((splitChunks demoDocSmall 4 2).get ⟨i + 1, hi⟩) p) ↔
         ((i + 1) * (4 - 2) ≤ p ∧ p < i * (4 - 2) + 4))) ∧
    (∀ i (hi : i + 1 < (splitChunks demoDocSmall 4 2).length),
       lastN 2 (((splitChunks demoDocSmall 4 2).get ⟨i, Nat.lt_of_succ_lt hi⟩).text.data) =
       firstN 2 (((splitChunks demoDocSmall 4 2).get ⟨i + 1, hi⟩).text.data)) :=
  chunker_cover_overlap demoDocSmall 4 2 (by omega) (by omega) (by omega)

set_option maxRecDepth 200000 in
/-- C3: splitting the 1200-character document with chunk_size = 500 and
overlap = 100 yields exactly three chunks at offsets [0,500), [400,900),
[800,1200), and the two 100-character overlap windows (offsets 400-500 and
800-900) agree verbatim between the adjacent chunks. -/
theorem chunker_scenario_1200 :
    split demoDoc1200 500 100 = Except.ok (splitChunks demoDoc1200 500 100) ∧
    ((splitChunks demoDoc1200 500 100).map fun c => (c.start_offset, c.end_offset)) =
      [(0, 500), (400, 900), (800, 1200)] ∧
    lastN 100 (((splitChunks demoDoc1200 500 100).getD 0 chunkDefault).text.data) =
      firstN 100 (((splitChunks demoDoc1200 500 100).getD 1 chunkDefault).text.data) ∧
    lastN 100 (((splitChunks demoDoc1200 500 100).getD 1 chunkDefault).text.data) =
      firstN 100 (((splitChunks demoDoc1200 500 100).getD 2 chunkDefault).text.data) := by
  refine ⟨rfl, by decide, by decide, by decide⟩

/-- C7: split fails with InvalidConfiguration exactly when chunk_size ≤ 0 or
overlap < 0 or overlap ≥ chunk_size, and succeeds with a chunk sequence on
every valid pair. -/
theorem chunker_config_validation (d : Document) (cs ov : Int) :
    (split d cs ov = Except.error ChunkerError.InvalidConfiguration ↔
      (cs ≤ 0 ∨ ov < 0 ∨ ov ≥ cs)) ∧
    (0 < cs → 0 ≤ ov → ov < cs → ∃ chunks, split d cs ov = Except.ok chunks) := by
  constructor
  · unfold split
    by_cases hc : cs ≤ 0 ∨ ov < 0 ∨ ov ≥ cs
    · rw [if_pos hc]
      exact ⟨fun _ => hc, fun _ => rfl⟩
    · rw [if_neg hc]
      exact iff_of_false (by simp) hc
  · intro h1 h2 h3
    refine ⟨splitChunks d cs.toNat ov.toNat, ?_⟩
    unfold split
    rw [if_neg (by omega)]

/-- Witness for C7 at chunk_size = 5 and overlap = 2. -/
theorem chunker_config_validation_witness :
    ∃ chunks, split demoDocSmall 5 2 = Except.ok chunks :=
  (chunker_config_validation demoDocSmall 5 2).2 (by omega) (by omega) (by omega)

/-- C2 (counterexample): an index built from zero chunks does not return
min(k, 0) = 0 results; query on it fails with EmptyIndex, as the error
contract of the Indexer demands. -/
theorem indexer_query_empty_counterexample :
    query (build [] demoEmbed) [] 1 = Except.error IndexError.EmptyIndex ∧
    query (build [] demoEmbed) [] 1 ≠ Except.ok [] :=
  ⟨rfl, fun h => Except.noConfusion h⟩

/-- C2 (amended: restricted to indices built from at least one chunk, since
the empty index fails with EmptyIndex instead of returning zero results):
query returns exactly min(k, N) results, ranked by the relation entryRel —
non-increasing score, ties by ascending sequence_index and then ascending
source_id — and the results are an initial segment of a permutation of the
scored entries. -/
theorem indexer_query_ranked (chunks : List Chunk) (embed : Chunk → List ℚ)
    (v : List ℚ) (k : Nat) (hk : 0 < k) (hn : chunks ≠ [])
    (hv : v.length = (build chunks embed).dim) :
    ∃ res, query (build chunks embed) v k = Except.ok res ∧
      res.length = min k chunks.length ∧
      List.Pairwise entryRel res ∧
      ∃ rest, (res ++ rest).Perm
        ((build chunks embed).entries.map fun e => (e.1, score v e.2)) := by
  have hne : (build chunks embed).entries ≠ [] := by
    simp only [build, ne_eq, List.map_eq_nil_iff]
    exact hn
  refine ⟨topEntries (build chunks embed) v k, ?_, ?_, ?_, ?_⟩
  · unfold query
    rw [if_neg hne, if_neg (not_not_intro hv)]
  · unfold topEntries
    rw [List.length_take, List.length_insertionSort, List.length_map]
    simp [build]
  · unfold topEntries
    exact (List.sorted_insertionSort entryRel _).sublist (List.take_sublist k _)
  · refine ⟨(List.insertionSort entryRel
      ((build chunks embed).entries.map fun e => (e.1, score v e.2))).drop k, ?_⟩
    unfold topEntries
    rw [List.take_append_drop]
    exact List.perm_insertionSort entryRel _

/-- Witness for C2 on the one-chunk index. -/
theorem indexer_query_ranked_witness :
    ∃ res, query (build [demoChunk] demoEmbed) [1] 1 = Except.ok res ∧
      res.length = min 1 [demoChunk].length ∧
      List.Pairwise entryRel res ∧
      ∃ rest, (res ++ rest).Perm
        ((build [demoChunk] demoEmbed).entries.map fun e => (e.1, score [1] e.2)) :=
  indexer_query_ranked [demoChunk] demoEmbed [1] 1 (by omega) (by simp) rfl

/-- C5: query on an index holding no entries fails with EmptyIndex for every
vector and k, and query with a vector whose length differs from the fixed
dimensionality of a non-empty index fails with DimensionMismatch; both are
returned as errors, not recovered. -/
theorem indexer_misuse_errors (idx : Index) (v : List ℚ) (k : Nat) :
    (idx.entries = [] → query idx v k = Except.error IndexError.EmptyIndex) ∧
    (idx.entries ≠ [] → v.length ≠ idx.dim →
      query idx v k = Except.error IndexError.DimensionMismatch) := by
  constructor
  · intro h
    unfold query
    rw [if_pos h]
  · intro h1 h2
    unfold query
    rw [if_neg h1, if_pos h2]

/-- Witness for C5 on the empty index and on the one-chunk index queried
with a vector of the wrong length. -/
theorem indexer_misuse_errors_witness :
    query (Index.mk []) [1] 1 = Except.error IndexError.EmptyIndex ∧
    query demoIdx [] 1 = Except.error IndexError.DimensionMismatch :=
  ⟨(indexer_misuse_errors (Index.mk []) [1] 1).1 rfl,
   (indexer_misuse_errors demoIdx [] 1).2 (by decide) (by decide)⟩

/-- C6: building an index twice from the same chunk sequence and embedding
function yields indices with identical query results for every query vector
and k; the build of the model is a pure function of its inputs, so the two
indices coincide. -/
theorem index_build_deterministic (chunks : List Chunk) (embed : Chunk → List ℚ)
    (v : List ℚ) (k : Nat) (i1 i2 : Index)
    (h1 : i1 = build chunks embed) (h2 : i2 = build chunks embed) :
    query i1 v k = query i2 v k := by
  rw [h1, h2]

/-- Witness for C6 on two builds over the one-chunk sequence. -/
theorem index_build_deterministic_witness :
    query (build [demoChunk] demoEmbed) [1] 1 =
      query (build [demoChunk] demoEmbed) [1] 1 :=
  index_build_deterministic [demoChunk] demoEmbed [1] 1 _ _ rfl rfl

/-- C8: when the generation backend fails on the final prompt, the
Retriever returns the Retrieval Result with the explicit no-answer marker
(answer = none) if the caller opted into retrieval-only degraded mode, and
surfaces GenerationUnavailable as an error otherwise; in neither mode is a
generated answer fabricated. -/
theorem retriever_degraded (gen : String → GenResult)
    (embed : String → Option (List ℚ)) (idx : Index)
    (history : List (String × String)) (q : String) (k : Nat)
    (v : List ℚ) (res : List (Chunk × ℚ))
    (hembed : embed (if history = [] then q else reformulate gen history q) = some v)
    (hquery : query idx v k = Except.ok res)
    (hgen : gen (genPrompt q res) = GenResult.unavailable) :
    converse true gen embed idx history q k =
      Except.ok (RetrieverOutput.mk none res) ∧
    converse false gen embed idx history q k =
      Except.error RetrieverError.GenerationUnavailable := by
  refine ⟨?_, ?_⟩ <;>
  · simp [converse, hembed, hquery, hgen]

/-- Witness for C8: an always-failing backend against the one-chunk index,
with empty history. -/
theorem retriever_degraded_witness :
    converse true demoGenFail demoEmbedQ demoIdx [] "q" 1 =
      Except.ok (RetrieverOutput.mk none [(demoChunk, score [1] (demoEmbed demoChunk))]) ∧
    converse false demoGenFail demoEmbedQ demoIdx [] "q" 1 =
      Except.error RetrieverError.GenerationUnavailable :=
  retriever_degraded demoGenFail demoEmbedQ demoIdx [] "q" 1 [1]
    [(demoChunk, score [1] (demoEmbed demoChunk))] rfl (by rfl) rfl

/-- C4 (counterexample): the claimed endpoint GET /books is not among the
routes the app directory layout exposes; the books handlers are mounted
under /api/status. -/
theorem routes_counterexample :
    (HttpMethod.get, "/books") ∈ claimedRoutes ∧
    (HttpMethod.get, "/books") ∉ appRoutes := by
  exact ⟨by decide, by decide⟩

/-- C4 (amended: the endpoints carry the /api prefix and the books list
lives under the folder named status): the handlers expose exactly
GET /api/status, POST /api/status, GET /api/status/[id],
GET /api/greetings/[name] and GET /api/hello; the book endpoints share one
in-memory list — POST appends any body unvalidated, and a subsequent GET
serves the appended list. -/
theorem routes_books_handlers :
    appRoutes = [(HttpMethod.get, "/api/status"), (HttpMethod.post, "/api/status"),
      (HttpMethod.get, "/api/status/[id]"), (HttpMethod.get, "/api/greetings/[name]"),
      (HttpMethod.get, "/api/hello")] ∧
    (∀ (bs : List Json) (b : Json), (booksPOST bs b).1 = bs ++ [b]) ∧
    (∀ (bs : List Json), booksGET bs =
      Json.obj [("message", Json.str "success"), ("data", Json.arr bs),
        ("status", Json.str "ok")]) ∧
    (∀ (bs : List Json) (b : Json),
      booksGET (booksPOST bs b).1 =
        Json.obj [("message", Json.str "success"), ("data", Json.arr (bs ++ [b])),
          ("status", Json.str "ok")]) :=
  ⟨rfl, fun _ _ => rfl, fun _ => rfl, fun _ _ => rfl⟩

/-- C9: the POST handler appends the request body to the books list exactly
as received, and the updatedBook field of its success response is the
length of the list after the append — the return value of
Array.prototype.push — not the inserted object. -/
theorem post_books_push_semantics (books : List Json) (body : Json) :
    (booksPOST books body).1 = books ++ [body] ∧
    (booksPOST books body).2 =
      Json.obj [("updatedBook", Json.num (Int.ofNat (books.length + 1))),
        ("status", Json.str "success")] := by
  refine ⟨rfl, ?_⟩
  simp [booksPOST]

theorem find_first_get {α : Type} (p : α → Bool) (l : List α) :
    ∀ (i : Nat) (hi : i < l.length), p (l.get ⟨i, hi⟩) = true →
      (∀ j (hj : j < i), p (l.get ⟨j, Nat.lt_trans hj hi⟩) = false) →
      l.find? p = some (l.get ⟨i, hi⟩) := by
  induction l with
  | nil =>
    intro i hi _ _
    exact absurd hi (by simp)
  | cons a tl ih =>
    intro i hi hp hb
    cases i with
    | zero =>
      have hpa : p a = true := hp
      rw [List.find?_cons_of_pos _ hpa]
      rfl
    | succ n =>
      have h0 : p a = false := hb 0 (Nat.succ_pos n)
      have hi' : n < tl.length := Nat.lt_of_succ_lt_succ hi
      have hp' : p (tl.get ⟨n, hi'⟩) = true := hp
      have hb' : ∀ j (hj : j < n), p (tl.get ⟨j, Nat.lt_trans hj hi'⟩) = false :=
        fun j hj => hb (j + 1) (Nat.succ_lt_succ hj)
      rw [List.find?_cons_of_neg _ (by simp [h0])]
      exact ih n hi' hp' hb'

/-- C10: the GET-by-id handler is total and always answers with status 200:
when no book id is loosely equal to the path parameter the body is the
empty object (the bookId field is undefined and dropped by serialization),
and otherwise the body carries the first loosely-matching book under
bookId; there is no 404 and no error. -/
theorem get_book_by_id_total (books : List Json) (idp : String) :
    (bookByIdGET books idp).1 = 200 ∧
    ((∀ b ∈ books, jsLooseEqUndef (b.getField "id") idp = false) →
      (bookByIdGET books idp).2 = Json.obj []) ∧
    (∀ i (hi : i < books.length),
      jsLooseEqUndef ((books.get ⟨i, hi⟩).getField "id") idp = true →
      (∀ j (hj : j < i),
        jsLooseEqUndef ((books.get ⟨j, Nat.lt_trans hj hi⟩).getField "id") idp = false) →
      (bookByIdGET books idp).2 = Json.obj [("bookId", books.get ⟨i, hi⟩)]) := by
  rcases h : books.find? (fun b => jsLooseEqUndef (b.getField "id") idp) with _ | b
  · refine ⟨?_, ?_, ?_⟩
    · unfold bookByIdGET
      rw [h]
    · intro _
      unfold bookByIdGET
      rw [h]
    · intro i hi hpi hbefore
      exact absurd hpi (by simpa using (List.find?_eq_none.mp h) _ (List.get_mem books i hi))
  · refine ⟨?_, ?_, ?_⟩
    · unfold bookByIdGET
      rw [h]
    · intro hall
      have hmem : b ∈ books := List.mem_of_find?_eq_some h
      have hpb := List.find?_some h
      rw [hall b hmem] at hpb
      exact Bool.noConfusion hpb
    · intro i hi hpi hbefore
      have hfirst := find_first_get (fun b => jsLooseEqUndef (b.getField "id") idp)
        books i hi hpi hbefore
      rw [h] at hfirst
      obtain rfl : b = books.get ⟨i, hi⟩ := Option.some.inj hfirst
      unfold bookByIdGET
      rw [h]

/-- Witness for C10: the demo book list with a numeric id 145 queried with
the string path parameter 145 returns that book under bookId. -/
theorem get_book_by_id_witness :
    (bookByIdGET demoBooks "145").1 = 200 ∧
    (bookByIdGET demoBooks "145").2 =
      Json.obj [("bookId", Json.obj [("id", Json.num 145), ("name", Json.str "Me")])] := by
  constructor
  · exact (get_book_by_id_total demoBooks "145").1
  · exact (get_book_by_id_total demoBooks "145").2.2 0 (by decide) (by decide)
      (fun j hj => absurd hj (Nat.not_lt_zero j))
